import Mathlib

/-
Verification of the theme-configuration module `theme.config.tsx` of the
inngest-demo-docs repository.  The module consists of a single constant
object literal `config` (an association of keys to string literals, nested
object literals and one JSX element) and the statement `export default config`.
We embed the universe of JavaScript/JSX values that can occur in such a
configuration as an inductive type and translate the literal field by field.
-/

namespace ThemeConfig

/-- Values that may appear in a `DocsThemeConfig` object: string literals,
JSX elements (a tag with a list of children), function values (tagged by a
name; the theme type admits component-valued fields, the concrete config
must be shown to contain none), and nested object literals. -/
inductive TsxValue where
  | str : String → TsxValue
  | element : String → List TsxValue → TsxValue
  | fn : String → TsxValue
  | obj : List (String × TsxValue) → TsxValue

open TsxValue

/-- The constant `config` of `src/theme.config.tsx`, lines 4-16, translated
field by field:  `logo: <span>Inngest Core</span>`, `project.link`,
`chat.link`, `docsRepositoryBase`, `footer.content`. -/
def config : TsxValue :=
  obj [
    ("logo", element "span" [str "Inngest Core"]),
    ("project", obj [("link", str "https://github.com/inngest")]),
    ("chat", obj [("link", str "https://discord.com/invite/mPfcyDEdpx")]),
    ("docsRepositoryBase", str "https://github.com/inngest/website"),
    ("footer", obj [("content", str "Inngest Docs")])
  ]

/-- The export table of the module: `export default config` (line 18) is the
only export statement, so the table binds the single name `default` to the
local constant `config`. -/
def moduleExports : List (String × TsxValue) := [("default", config)]

/-- The top-level keys of an object value, in source order. -/
def topKeys : TsxValue → List String
  | obj fields => fields.map Prod.fst
  | _ => []

/-- Association-list lookup over object fields. -/
def lookupList : List (String × TsxValue) → String → Option TsxValue
  | [], _ => none
  | (k, v) :: rest, key => if k == key then some v else lookupList rest key

/-- Field lookup on an object value. -/
def lookupField (v : TsxValue) (k : String) : Option TsxValue :=
  match v with
  | obj fields => lookupList fields k
  | _ => none

/-- Lookup along a path of keys. -/
def getPath (v : TsxValue) : List String → Option TsxValue
  | [] => some v
  | k :: rest =>
    match lookupField v k with
    | some v2 => getPath v2 rest
    | none => none

/-- Is the value a nested object literal? -/
def isObjB : TsxValue → Bool
  | obj _ => true
  | _ => false

/-- Is the value a string literal? -/
def isStr : TsxValue → Bool
  | str _ => true
  | _ => false

/-- Is the value a JSX element? -/
def isElement : TsxValue → Bool
  | element _ _ => true
  | _ => false

/-- Is the value a function value? -/
def isFn : TsxValue → Bool
  | fn _ => true
  | _ => false

/-- Scan the tail of a candidate URL after its first character: consume
alphabetic scheme characters until the separator `://` and return what
follows it, or `none` when the separator is malformed or absent. -/
def afterScheme : List Char → Option (List Char)
  | ':' :: '/' :: '/' :: tail => some tail
  | c :: rest => if c.isAlpha then afterScheme rest else none
  | [] => none

/-- A string is a well-formed absolute URL when it starts with a nonempty
alphabetic scheme, then the separator `://`, then a nonempty host part that
does not itself begin with a path separator. -/
def isAbsoluteUrl (s : String) : Bool :=
  match s.toList with
  | c :: rest =>
    c.isAlpha &&
      (match afterScheme rest with
       | some (h :: _) => h != '/'
       | _ => false)
  | [] => false

/-- A string starts with the literal scheme marker `https://`. -/
def hasHttpsScheme (s : String) : Bool :=
  s.toList.take 8 == "https://".toList

/-- JSON values (the fragment needed here: strings and objects). -/
inductive Json where
  | jstr : String → Json
  | jobj : List (String × Json) → Json

mutual

/-- Serialize a configuration value to JSON; JSX elements and function
values are not JSON-serializable and yield `none`. -/
def toJson : TsxValue → Option Json
  | .str s => some (.jstr s)
  | .element _ _ => none
  | .fn _ => none
  | .obj fields =>
    match toJsonFields fields with
    | some fs => some (.jobj fs)
    | none => none

/-- Serialize a field list to JSON fields. -/
def toJsonFields : List (String × TsxValue) → Option (List (String × Json))
  | [] => some []
  | (k, v) :: rest =>
    match toJson v, toJsonFields rest with
    | some j, some fs => some ((k, j) :: fs)
    | _, _ => none

end

mutual

/-- Deserialize a JSON value back into a configuration value. -/
def fromJson : Json → TsxValue
  | .jstr s => .str s
  | .jobj fields => .obj (fromJsonFields fields)

/-- Deserialize JSON fields back into configuration fields. -/
def fromJsonFields : List (String × Json) → List (String × TsxValue)
  | [] => []
  | (k, j) :: rest => (k, fromJson j) :: fromJsonFields rest

end

/-- Remove one top-level field from an object value. -/
def removeField (v : TsxValue) (key : String) : TsxValue :=
  match v with
  | obj fields => obj (fields.filter (fun kv => kv.1 != key))
  | other => other

/-- Shallow embedding of evaluating the module in an environment (a map
from environment-variable names to values).  The module body of
`theme.config.tsx` consists only of two type-level imports, the literal
`config` and `export default config`: it reads no environment variable, no
input and no external state, and contains no operation that can throw, so
evaluation ignores the environment and always succeeds with the export
table. -/
def evalModule (_env : String → Option String) :
    Except String (List (String × TsxValue)) :=
  Except.ok moduleExports

mutual

/-- No function value occurs anywhere in a configuration value. -/
def noFnValue : TsxValue → Bool
  | .str _ => true
  | .element _ cs => noFnList cs
  | .fn _ => false
  | .obj fields => noFnFields fields

/-- No function value occurs in a list of children. -/
def noFnList : List TsxValue → Bool
  | [] => true
  | v :: rest => noFnValue v && noFnList rest

/-- No function value occurs in a field list. -/
def noFnFields : List (String × TsxValue) → Bool
  | [] => true
  | (_, v) :: rest => noFnValue v && noFnFields rest

end

/-- The claim of spec section 4 as stated: every value bound to a top-level
key of the object is a scalar, i.e. not a nested object. -/
def allTopLevelScalar (v : TsxValue) : Bool :=
  match v with
  | obj fields => fields.all (fun kv => !isObjB kv.2)
  | _ => false

/-- A value is a scalar, or an object all of whose own values are scalars
(nesting depth at most one). -/
def scalarOrFlatObj (v : TsxValue) : Bool :=
  match v with
  | obj fields => fields.all (fun kv => !isObjB kv.2)
  | _ => true

/-- An object value whose nesting depth is at most two: every top-level
value is a scalar or a flat object. -/
def shallowObj (v : TsxValue) : Bool :=
  match v with
  | obj fields => fields.all (fun kv => scalarOrFlatObj kv.2)
  | _ => false

end ThemeConfig

namespace ThemeConfig

open TsxValue

example : isAbsoluteUrl "://nohost" = false := by decide

example : isAbsoluteUrl "https:/x" = false := by decide

example : isAbsoluteUrl "https://" = false := by decide

example : isAbsoluteUrl "https:///path" = false := by decide

/-- C1: the top-level keys of the exported configuration are exactly
`logo`, `project`, `chat`, `docsRepositoryBase`, `footer`; the `project`
and `chat` objects each contain exactly the key `link`; the `footer`
object contains exactly the key `content`. -/
theorem config_keys_exact :
    topKeys config = ["logo", "project", "chat", "docsRepositoryBase", "footer"] ∧
    (lookupField config "project").map topKeys = some ["link"] ∧
    (lookupField config "chat").map topKeys = some ["link"] ∧
    (lookupField config "footer").map topKeys = some ["content"] :=
  ⟨rfl, rfl, rfl, rfl⟩

/-- C2 counterexample: the claim that every value bound to a top-level key
is a scalar (non-object) fails at the concrete key `project`, whose value
is the nested object `{ link: ... }`; hence `allTopLevelScalar` is false on
the configuration. -/
theorem config_not_flat :
    lookupField config "project" =
      some (obj [("link", str "https://github.com/inngest")]) ∧
    isObjB (obj [("link", str "https://github.com/inngest")]) = true ∧
    allTopLevelScalar config = false :=
  ⟨rfl, rfl, rfl⟩

/-- C2 amended: the configuration is shallow rather than flat — every
top-level value is either a scalar or a nested object whose own values are
all scalars (nesting depth at most two). -/
theorem config_shallow : shallowObj config = true := by decide

/-- C3: each of the three link fields `project.link`, `chat.link` and
`docsRepositoryBase` holds a string that is a well-formed absolute URL
(nonempty alphabetic scheme, the separator, nonempty host). -/
theorem link_fields_absolute_urls :
    (∃ s, getPath config ["project", "link"] = some (str s) ∧ isAbsoluteUrl s = true) ∧
    (∃ s, getPath config ["chat", "link"] = some (str s) ∧ isAbsoluteUrl s = true) ∧
    (∃ s, getPath config ["docsRepositoryBase"] = some (str s) ∧ isAbsoluteUrl s = true) :=
  ⟨⟨_, rfl, by decide⟩, ⟨_, rfl, by decide⟩, ⟨_, rfl, by decide⟩⟩

/-- C4: the `footer.content` field is a string, and the `logo` field is a
JSX element — neither a string nor a plain data object. -/
theorem footer_string_logo_element :
    (getPath config ["footer", "content"]).map isStr = some true ∧
    (lookupField config "logo").map isElement = some true ∧
    (lookupField config "logo").map isStr = some false ∧
    (lookupField config "logo").map isObjB = some false :=
  ⟨rfl, rfl, rfl, rfl⟩

/-- C5: evaluating the module is deterministic and independent of the
environment — any two evaluations agree — and no value anywhere in the
configuration is a function value. -/
theorem config_module_pure :
    (∀ e1 e2 : String → Option String, evalModule e1 = evalModule e2) ∧
    noFnValue config = true :=
  ⟨fun _ _ => rfl, rfl⟩

/-- C5 witness: the evaluations under the empty environment and under an
environment binding every name agree, and the function-freeness check
evaluates to true. -/
theorem config_module_pure_witness :
    evalModule (fun _ => none) = evalModule (fun _ => some "value") ∧
    noFnValue config = true :=
  ⟨config_module_pure.1 _ _, config_module_pure.2⟩

/-- C6: construction of the configuration cannot fail — evaluating the
module in any environment yields `ok` with the export table, never an
error. -/
theorem config_construction_total :
    ∀ env : String → Option String, evalModule env = Except.ok moduleExports :=
  fun _ => rfl

/-- C6 witness: evaluation under the empty environment yields `ok`. -/
theorem config_construction_total_witness :
    evalModule (fun _ => none) = Except.ok moduleExports :=
  config_construction_total _

/-- C7: the configuration's field values are exactly the constants written
in the source: the three link strings, the footer text `Inngest Docs`, and
the logo `<span>Inngest Core</span>`. -/
theorem config_field_values :
    getPath config ["project", "link"] = some (str "https://github.com/inngest") ∧
    getPath config ["chat", "link"] = some (str "https://discord.com/invite/mPfcyDEdpx") ∧
    getPath config ["docsRepositoryBase"] = some (str "https://github.com/inngest/website") ∧
    getPath config ["footer", "content"] = some (str "Inngest Docs") ∧
    lookupField config "logo" = some (element "span" [str "Inngest Core"]) :=
  ⟨rfl, rfl, rfl, rfl, rfl⟩

/-- C8: every link field's string begins with the `https://` scheme, and
the configuration with the `logo` field removed serializes to JSON and
deserializes back unchanged. -/
theorem config_https_json_roundtrip :
    (∃ s, getPath config ["project", "link"] = some (str s) ∧ hasHttpsScheme s = true) ∧
    (∃ s, getPath config ["chat", "link"] = some (str s) ∧ hasHttpsScheme s = true) ∧
    (∃ s, getPath config ["docsRepositoryBase"] = some (str s) ∧ hasHttpsScheme s = true) ∧
    (∃ j, toJson (removeField config "logo") = some j ∧
      fromJson j = removeField config "logo") :=
  ⟨⟨_, rfl, by decide⟩, ⟨_, rfl, by decide⟩, ⟨_, rfl, by decide⟩, ⟨_, rfl, rfl⟩⟩

/-- C9: the module's export table binds exactly one name, `default`, and
its value is the local constant `config`. -/
theorem module_single_default_export :
    moduleExports.map Prod.fst = ["default"] ∧
    lookupList moduleExports "default" = some config :=
  ⟨rfl, rfl⟩

example : lookupField config "project" = some (obj [("link", str "https://github.com/inngest")]) := rfl

example : getPath config ["project", "link"] = some (str "https://github.com/inngest") := rfl

end ThemeConfig
